import Mathlib

/-!
Shallow embedding of the Powerplant backend (FastAPI + pandas service that
ingests EPA eGRID generator spreadsheets, normalizes them, stores them in an
object store and serves top-N aggregate queries).

Modelling conventions:
* A pandas cell is `Option Cell`: `none` models NaN / a missing value; `Cell.num`
  models a numeric value (int64 and float64 are modelled uniformly as integers:
  every numeric computation the verified claims exercise — summation, ordering,
  equality, defaulting to 0 — is exact integral arithmetic on which the two
  dtypes agree); `Cell.str` models textual data.  The CSV reader's numeric
  inference is absorbed into this model: numeric-like text is already a
  `Cell.num`, so `pd.to_numeric` with coercion sends `Cell.str` cells to `none`.
* A row stores one `(column name, value)` entry per column; a key missing from a
  row reads as a null cell (as after `pd.concat` of frames with differing columns).
* A `Table` is a pandas DataFrame: a list of column names plus a list of rows.
-/

inductive Cell where
  | num (q : ℤ)
  | str (s : String)
deriving DecidableEq, Repr

abbrev Row := List (String × Option Cell)

structure Table where
  cols : List String
  rows : List Row
deriving DecidableEq, Repr

def emptyTable : Table := ⟨[], []⟩

/-- `DataFrame.empty`: true when either axis has length zero. -/
def Table.isEmpty (t : Table) : Bool := t.cols.isEmpty || t.rows.isEmpty

/-- Read the cell of row `r` in column `c`; a missing key is a null cell. -/
def cellOf (r : Row) (c : String) : Option Cell := (r.lookup c).join

/-- String suffix test (`str.endswith`), structurally on the character lists. -/
def strEndsWith (s suf : String) : Bool := suf.data.isSuffixOf s.data

def dedupAux {α : Type} [DecidableEq α] (seen : List α) : List α → List α
  | [] => []
  | a :: as => if a ∈ seen then dedupAux seen as else a :: dedupAux (a :: seen) as

/-- Keep-first removal of duplicates (`DataFrame.drop_duplicates`, `Series.unique`). -/
def dedupList {α : Type} [DecidableEq α] (l : List α) : List α := dedupAux [] l

/-- `pd.to_numeric(errors="coerce")` applied to one cell: numeric values pass
through, non-numeric text and nulls become the missing marker. -/
def toNumericO : Option Cell → Option Cell
  | some (Cell.num q) => some (Cell.num q)
  | _ => none

/-- The required columns checked by `process_csv_data` (services.py). -/
def requiredColumns : List String := ["GENID", "PNAME", "PSTATEABB", "GENNTAN", "ORISPL"]

/-- A row of the frame `selected_df` built by `process_csv_data`, in the column
order `df[required_columns]`. -/
def mkProcRow (g p s n o : Option Cell) : Row :=
  [("GENID", g), ("PNAME", p), ("PSTATEABB", s), ("GENNTAN", n), ("ORISPL", o)]

/-- Per-row effect of `process_csv_data`: select the five required columns,
coerce `GENNTAN` to numeric, and drop the row when any of
`GENNTAN, PSTATEABB, PNAME, ORISPL` is missing (the `dropna` subset omits
`GENID`). -/
def procRow (r : Row) : Option Row :=
  let g := cellOf r "GENID"
  let p := cellOf r "PNAME"
  let s := cellOf r "PSTATEABB"
  let n := toNumericO (cellOf r "GENNTAN")
  let o := cellOf r "ORISPL"
  if n.isSome && s.isSome && p.isSome && o.isSome then
    some (mkProcRow g p s n o)
  else
    none

/-- `process_csv_data` (services.py): reject the file entirely when a required
column is absent, otherwise select, coerce and row-filter. -/
def processCsvData (t : Table) : Table :=
  if requiredColumns.all (fun c => t.cols.contains c) then
    ⟨requiredColumns, t.rows.filterMap procRow⟩
  else
    emptyTable

/-! ## The upload-side cleaner (`data_cleaner.py`) -/

/-- `columns_mapping` in `clean_dataframe`: legacy eGRID codes to long-form names. -/
def columnsMapping : List (String × String) :=
  [("SEQGEN23", "Generator file sequence number"),
   ("YEAR", "Data Year"),
   ("PSTATEABB", "Plant state abbreviation"),
   ("PNAME", "Plant name"),
   ("ORISPL", "DOE/EIA ORIS plant or facility code"),
   ("GENID", "Generator ID"),
   ("NUMBLR", "Number of associated boilers"),
   ("GENSTAT", "Generator status"),
   ("PRMVR", "Generator prime mover type"),
   ("FUELG1", "Generator primary fuel"),
   ("NAMEPCAP", "Generator nameplate capacity (MW)"),
   ("CFACT", "Generator capacity factor"),
   ("GENNTAN", "Generator annual net generation (MWh)"),
   ("GENNTOZ", "Generator ozone season net generation (MWh)"),
   ("GENERSRC", "Generation data source"),
   ("GENYRONL", "Generator year on-line"),
   ("GENYRRET", "Generator planned or actual retirement year")]

/-- `fill_values` in `clean_dataframe`: per-column defaults used by `fillna`. -/
def fillValues : List (String × Cell) :=
  [("Number of associated boilers", Cell.num 0),
   ("Generator nameplate capacity (MW)", Cell.num 0),
   ("Generator capacity factor", Cell.num 0),
   ("Generator annual net generation (MWh)", Cell.num 0),
   ("Generator ozone season net generation (MWh)", Cell.num 0),
   ("Generator planned or actual retirement year", Cell.num 0),
   ("Generator status", Cell.str "Unknown"),
   ("Generator prime mover type", Cell.str "Unknown"),
   ("Generator primary fuel", Cell.str "Unknown"),
   ("Generation data source", Cell.str "Unknown")]

def renameRow (rd : List (String × String)) (r : Row) : Row :=
  r.map (fun p => ((rd.lookup p.1).getD p.1, p.2))

/-- `df.rename(columns=rename_dict)` where `rename_dict` restricts
`columns_mapping` to the columns actually present. -/
def renameStage (t : Table) : Table :=
  let rd := columnsMapping.filter (fun p => t.cols.contains p.1)
  ⟨t.cols.map (fun c => ((rd.lookup c).getD c)), t.rows.map (renameRow rd)⟩

def fillRow (fd : List (String × Cell)) (r : Row) : Row :=
  r.map (fun p =>
    match p.2 with
    | some v => (p.1, some v)
    | none => (p.1, fd.lookup p.1))

/-- `df.fillna(fill_dict)` where `fill_dict` restricts `fill_values` to the
columns actually present.  A null cell of an unlisted column stays null. -/
def fillStage (t : Table) : Table :=
  let fd := fillValues.filter (fun p => t.cols.contains p.1)
  ⟨t.cols, t.rows.map (fillRow fd)⟩

/-- `df.drop_duplicates()` (all columns, keep the first occurrence). -/
def dedupStage (t : Table) : Table := ⟨t.cols, dedupList t.rows⟩

/-- Targets of the `type_conversions` table in `clean_dataframe`.  Under the
integer cell model both dtype targets are value-invisible: `astype("float")`
re-types without changing values, and `astype("int")` either truncates an
all-numeric column (the identity on integral values; none of the listed `int`
targets is among the five canonical fields) or soft-fails with
`errors="ignore"` and leaves the column unchanged. -/
inductive DType where
  | intDT
  | floatDT
deriving DecidableEq, Repr

def typeConversions : List (String × DType) :=
  [("Data Year", DType.intDT),
   ("Generator nameplate capacity (MW)", DType.floatDT),
   ("Generator capacity factor", DType.floatDT),
   ("Generator annual net generation (MWh)", DType.floatDT),
   ("Generator ozone season net generation (MWh)", DType.floatDT),
   ("Generator year on-line", DType.intDT),
   ("Generator planned or actual retirement year", DType.intDT)]

/-- `df[col].astype(dtype, errors="ignore")`: value-invisible in this cell
model (see `DType`), so each listed existing column maps cell-wise through the
identity. -/
def convertCol (c : String) (t : Table) : Table :=
  ⟨t.cols, t.rows.map (fun r => r.map (fun p => if p.1 = c then (p.1, p.2) else p))⟩

/-- The `type_conversions` loop: convert each listed column that exists. -/
def convStage (t : Table) : Table :=
  typeConversions.foldl
    (fun acc p => if acc.cols.contains p.1 then convertCol p.1 acc else acc)
    t

/-- `clean_dataframe` (data_cleaner.py): rename, fill defaults, drop duplicate
rows, convert dtypes. -/
def cleanDataframe (t : Table) : Table := convStage (dedupStage (fillStage (renameStage t)))

/-- `api_columns` in `convert_to_api_format`: long-form names to compact API names. -/
def apiColumns : List (String × String) :=
  [("Generator ID", "GENID"),
   ("Plant name", "PNAME"),
   ("Plant state abbreviation", "PSTATEABB"),
   ("DOE/EIA ORIS plant or facility code", "ORISPL"),
   ("Generator annual net generation (MWh)", "GENNTAN")]

/-- Which source column feeds an API column: the long-form name when present,
else the compact name when already present, else nothing. -/
def apiSource (t : Table) (p : String × String) : Option String :=
  if t.cols.contains p.1 then some p.1
  else if t.cols.contains p.2 then some p.2
  else none

/-- `convert_to_api_format` (data_cleaner.py): project to the five compact
columns; when any of the five has no source the `ValueError` is caught and an
empty frame is returned. -/
def convertToApiFormat (t : Table) : Table :=
  if apiColumns.all (fun p => (apiSource t p).isSome) then
    ⟨apiColumns.map (fun p => p.2),
     t.rows.map (fun r => apiColumns.map (fun p => (p.2, cellOf r ((apiSource t p).getD p.1))))⟩
  else emptyTable

/-! ## Application state, upload, materializer (`routes/power_plants.py`, `services.py`) -/

structure AppState where
  store : List (String × Table)
  dataCache : Option Table
  dataCacheTs : Option Nat
  statesCache : Option (List String)
deriving DecidableEq, Repr

inductive UploadOutcome where
  | rejected
  | uploaded (count : Nat)
deriving DecidableEq, Repr

/-- `file.filename.rsplit(".", 1)[0]`: everything before the last dot, or the
whole name when it has no dot. -/
def stemOf (s : String) : String :=
  match s.data.reverse.dropWhile (fun c => c ≠ '.') with
  | [] => s
  | _ :: rest => String.mk rest.reverse

/-- `put_object`: overwrite-or-create the named blob. -/
def putBlob (store : List (String × Table)) (k : String) (v : Table) :
    List (String × Table) :=
  store.filter (fun p => p.1 ≠ k) ++ [(k, v)]

/-- `upload_csv` (routes/power_plants.py): extension check, clean, convert to
API format, reject when the result frame is empty, otherwise store the cleaned
blob and clear the states cache.  The uploaded content is taken already parsed
into a `Table`; an unparseable file is the empty table. -/
def uploadCsv (fname : String) (content : Table) (st : AppState) :
    UploadOutcome × AppState :=
  if !(strEndsWith fname ".csv" || strEndsWith fname ".xlsx") then
    (UploadOutcome.rejected, st)
  else
    let api := convertToApiFormat (cleanDataframe content)
    if api.isEmpty then
      (UploadOutcome.rejected, st)
    else
      (UploadOutcome.uploaded api.rows.length,
       { st with
           store := putBlob st.store ("cleaned_" ++ stemOf fname ++ ".csv") api,
           statesCache := none })

/-- What the object store would return on one consolidation pass: a listing
error, or the named blobs, each either fetched (`some` parsed content) or
failing its `get` (`none`).  The gateway collaborator is passed to the
materializer but — see `refreshData` — is never actually consulted. -/
abbrev Listing := Except Unit (List (String × Option Table))

/-- `pd.concat(all_data, ignore_index=True)`: union of columns in order of
first appearance, concatenation of rows. -/
def concatTables (l : List Table) : Table :=
  ⟨dedupList (l.map (fun t => t.cols)).flatten, (l.map (fun t => t.rows)).flatten⟩

instance {ε α : Type} [DecidableEq ε] [DecidableEq α] : DecidableEq (Except ε α) :=
  fun x y =>
  match x, y with
  | Except.error a, Except.error b =>
    if h : a = b then isTrue (by rw [h]) else isFalse (by simp [h])
  | Except.error _, Except.ok _ => isFalse (by simp)
  | Except.ok _, Except.error _ => isFalse (by simp)
  | Except.ok a, Except.ok b =>
    if h : a = b then isTrue (by rw [h]) else isFalse (by simp [h])

/-- Outcome of one materializer call: `data` is the returned frame, or
`Except.error` for an exception that escapes `get_data_from_s3` (the routes
catch it and answer HTTP 500); `st` is the process state afterwards;
`accessed` records whether the object store was touched. -/
structure FetchResult where
  data : Except Unit Table
  st : AppState
  accessed : Bool
deriving DecidableEq, Repr

/-- The refresh path of `get_data_from_s3`: the backend dispatch
`isinstance(s3_client, boto3.client)` at services.py line 57 raises `TypeError`
unconditionally — `boto3.client` is a module-level function, not a type — and
that line sits outside both `try` blocks, so every refresh raises before the
bucket is listed or any blob is read.  The listing/fetch/process/concat code
and the cache assignment below that line are unreachable, so the refresh
returns an escaping error, mutates nothing, and never touches the store. -/
def refreshData (st : AppState) : FetchResult :=
  ⟨Except.error (), st, false⟩

/-- `get_data_from_s3` (services.py): serve from cache when both cache fields
are set and the cache is younger than 300 seconds, else take the (always
raising) refresh path. -/
def getDataFromS3 (now : Nat) (listing : Listing) (st : AppState) : FetchResult :=
  match st.dataCache, st.dataCacheTs with
  | some d, some t =>
    if now - t < 300 then ⟨Except.ok d, st, false⟩ else refreshData st
  | _, _ => refreshData st

/-! ## States endpoint and aggregation engine -/

def insertAscStr (a : String) : List String → List String
  | [] => [a]
  | b :: l => if a ≤ b then a :: b :: l else b :: insertAscStr a l

/-- `list.sort()` on the distinct state strings. -/
def sortStrings : List String → List String
  | [] => []
  | a :: l => insertAscStr a (sortStrings l)

/-- `get_states` (routes/power_plants.py): serve the states cache when set,
else materialize the dataset — an escaping materializer exception is caught by
the route and surfaced as an error (HTTP 500) — return `[]` (without caching)
when the dataset is empty, else cache and return the sorted distinct
`PSTATEABB` values. -/
def getStates (now : Nat) (listing : Listing) (st : AppState) :
    Except Unit (List String) × AppState :=
  match st.statesCache with
  | some s => (Except.ok s, st)
  | none =>
    match getDataFromS3 now listing st with
    | ⟨Except.error e, st2, _⟩ => (Except.error e, st2)
    | ⟨Except.ok d, st2, _⟩ =>
      if d.isEmpty then (Except.ok [], st2)
      else
        let states := sortStrings
          ((dedupList (d.rows.map (fun row => cellOf row "PSTATEABB"))).filterMap
            (fun c => match c with
                      | some (Cell.str s) => some s
                      | _ => none))
        (Except.ok states, { st2 with statesCache := some states })

structure PowerPlant where
  id : String
  name : String
  state : String
  netGeneration : ℤ
deriving DecidableEq, Repr

/-- Python `str()` of a cell value. -/
def cellToString : Cell → String
  | Cell.num q => toString q
  | Cell.str s => s

/-- The `groupby(["ORISPL", "PNAME"])` key of a row; groupby drops rows whose
key contains a null (`dropna=True` default). -/
def rowKey (r : Row) : Option (Cell × Cell) :=
  match cellOf r "ORISPL", cellOf r "PNAME" with
  | some k1, some k2 => some (k1, k2)
  | _, _ => none

/-- The numeric value of a row's `GENNTAN` cell, if any. -/
def genntanVal (r : Row) : Option ℤ :=
  match cellOf r "GENNTAN" with
  | some (Cell.num q) => some q
  | _ => none

/-- `GENNTAN` sum of the rows with group key `k` (`sum` skips missing values). -/
def groupSum (rows : List Row) (k : Cell × Cell) : ℤ :=
  ((rows.filter (fun r => rowKey r = some k)).filterMap genntanVal).sum

/-- `data[data["PSTATEABB"] == state]`: NaN and non-string cells never match. -/
def stateRows (data : Table) (state : String) : List Row :=
  data.rows.filter (fun r => cellOf r "PSTATEABB" = some (Cell.str state))

/-- Every `GENNTAN` cell of the table is numeric and non-null (true of every
consolidated dataset; scopes the aggregation model to frames where the pandas
`sum` is plain numeric summation). -/
def gennAllNum (data : Table) : Prop :=
  ∀ r ∈ data.rows, (genntanVal r).isSome

instance (data : Table) : Decidable (gennAllNum data) := by
  unfold gennAllNum
  infer_instance

def insertDescBy {α : Type} (key : α → ℤ) (a : α) : List α → List α
  | [] => [a]
  | b :: l => if key b < key a then a :: b :: l else b :: insertDescBy key a l

/-- `sort_values(ascending=False)` on the summed column.  The claims under
verification depend only on the value-ordering of the output, which every
descending sort realizes, not on pandas' (unstable) tie order. -/
def sortDescBy {α : Type} (key : α → ℤ) : List α → List α
  | [] => []
  | a :: l => insertDescBy key a (sortDescBy key l)

/-- `DataFrame.head(n)`: the first `n` rows when `n ≥ 0`, and all rows but the
last `|n|` when `n < 0`. -/
def intHead {α : Type} (n : ℤ) (l : List α) : List α :=
  if 0 ≤ n then l.take n.toNat else l.take (l.length - (-n).toNat)

/-- The grouped/summed/sorted/truncated frame `plant_totals` of `get_plants`:
group keys appear in order of first occurrence in the state-filtered rows
(the subsequent value sort makes the groupby key order unobservable). -/
def topGroups (data : Table) (state : String) (limit : ℤ) :
    List ((Cell × Cell) × ℤ) :=
  if data.isEmpty then []
  else
    let srows := stateRows data state
    if srows.isEmpty then []
    else
      let keys := dedupList (srows.filterMap rowKey)
      intHead limit (sortDescBy (fun g => g.2) (keys.map (fun k => (k, groupSum srows k))))

/-- Aggregation core of `get_plants` (routes/power_plants.py): the top-N
aggregates of a materialized dataset as `PowerPlant` records. -/
def topPlants (data : Table) (state : String) (limit : ℤ) : List PowerPlant :=
  (topGroups data state limit).map
    (fun g => ⟨cellToString g.1.1, cellToString g.1.2, state, g.2⟩)

/-- The `get_plants` route end to end: materialize the dataset (an escaping
materializer exception is caught and surfaced as an error / HTTP 500), then
aggregate. -/
def getPlants (now : Nat) (listing : Listing) (st : AppState) (state : String)
    (limit : ℤ) : Except Unit (List PowerPlant) × AppState :=
  match getDataFromS3 now listing st with
  | ⟨Except.error e, st2, _⟩ => (Except.error e, st2)
  | ⟨Except.ok d, st2, _⟩ => (Except.ok (topPlants d state limit), st2)

/-- The spec's C3 example dataset: two rows of plant 55 "Alpha" in CA. -/
def c3Example : Table :=
  ⟨["GENID", "PNAME", "PSTATEABB", "GENNTAN", "ORISPL"],
   [[("GENID", some (Cell.str "G1")), ("PNAME", some (Cell.str "Alpha")),
     ("PSTATEABB", some (Cell.str "CA")), ("GENNTAN", some (Cell.num 100)),
     ("ORISPL", some (Cell.num 55))],
    [("GENID", some (Cell.str "G2")), ("PNAME", some (Cell.str "Alpha")),
     ("PSTATEABB", some (Cell.str "CA")), ("GENNTAN", some (Cell.num 50)),
     ("ORISPL", some (Cell.num 55))]]⟩

/-! ## Concrete fixtures used by witnesses and counterexamples -/

/-- The process starts with an empty store and cold caches. -/
def initialState : AppState := ⟨[], none, none, none⟩

/-- A state whose dataset cache was filled at time 100. -/
def cachedState : AppState := ⟨[], some c3Example, some 100, none⟩

/-- A file whose single row has a null `GENID` but valid other fields. -/
def genidNullTable : Table :=
  ⟨["GENID", "PNAME", "PSTATEABB", "GENNTAN", "ORISPL"],
   [[("GENID", none), ("PNAME", some (Cell.str "Alpha")),
     ("PSTATEABB", some (Cell.str "CA")), ("GENNTAN", some (Cell.num 100)),
     ("ORISPL", some (Cell.num 55))]]⟩

/-- A legacy-named file whose single row has a missing `GENNTAN`. -/
def legacyNullGenntanTable : Table :=
  ⟨["GENID", "PNAME", "PSTATEABB", "GENNTAN", "ORISPL"],
   [[("GENID", some (Cell.str "G1")), ("PNAME", some (Cell.str "Alpha")),
     ("PSTATEABB", some (Cell.str "CA")), ("GENNTAN", none),
     ("ORISPL", some (Cell.num 55))]]⟩

/-- A legacy-named file whose single row has a non-coercible `GENNTAN`. -/
def legacyBadGenntanTable : Table :=
  ⟨["GENID", "PNAME", "PSTATEABB", "GENNTAN", "ORISPL"],
   [[("GENID", some (Cell.str "G1")), ("PNAME", some (Cell.str "Alpha")),
     ("PSTATEABB", some (Cell.str "CA")), ("GENNTAN", some (Cell.str "abc")),
     ("ORISPL", some (Cell.num 55))]]⟩

/-- A file missing the generator-id column under both naming schemes. -/
def missingColTable : Table :=
  ⟨["PNAME", "PSTATEABB", "GENNTAN", "ORISPL"],
   [[("PNAME", some (Cell.str "Alpha")), ("PSTATEABB", some (Cell.str "CA")),
     ("GENNTAN", some (Cell.num 100)), ("ORISPL", some (Cell.num 55))]]⟩

/-- A stored file that lacks every required column. -/
def invalidFile : Table := ⟨["FOO"], [[("FOO", some (Cell.str "x"))]]⟩

/-- A dataset with two distinct plants in CA. -/
def twoPlantTable : Table :=
  ⟨["GENID", "PNAME", "PSTATEABB", "GENNTAN", "ORISPL"],
   [[("GENID", some (Cell.str "G1")), ("PNAME", some (Cell.str "Alpha")),
     ("PSTATEABB", some (Cell.str "CA")), ("GENNTAN", some (Cell.num 100)),
     ("ORISPL", some (Cell.num 55))],
    [("GENID", some (Cell.str "G2")), ("PNAME", some (Cell.str "Beta")),
     ("PSTATEABB", some (Cell.str "CA")), ("GENNTAN", some (Cell.num 70)),
     ("ORISPL", some (Cell.num 56))]]⟩

/-- A store listing where one remaining file is valid but another blob's get fails. -/
def badListing : Listing :=
  Except.ok [("good.csv", some c3Example), ("bad.csv", (none : Option Table))]

/-- A store listing holding one valid file and one invalid-content file. -/
def mixedListing : Listing :=
  Except.ok [("good.csv", some c3Example), ("bogus.csv", some invalidFile)]

/-- The first canonical record obtained by processing `c3Example` as a stored file. -/
def c3ProcessedRow : Row :=
  mkProcRow (some (Cell.str "G1")) (some (Cell.str "Alpha")) (some (Cell.str "CA"))
    (some (Cell.num 100)) (some (Cell.num 55))

/-! ## Helper lemmas -/

theorem mem_of_mem_dedupAux {α : Type} [DecidableEq α] {seen l : List α} {a : α}
    (h : a ∈ dedupAux seen l) : a ∈ l := by
  induction l generalizing seen with
  | nil => simp [dedupAux] at h
  | cons b bs ih =>
    simp only [dedupAux] at h
    split at h
    · exact List.mem_cons_of_mem _ (ih h)
    · rcases List.mem_cons.mp h with rfl | h2
      · exact List.mem_cons_self _ _
      · exact List.mem_cons_of_mem _ (ih h2)

theorem dedupAux_nodup {α : Type} [DecidableEq α] (l : List α) : ∀ seen : List α,
    (dedupAux seen l).Nodup ∧ ∀ a ∈ dedupAux seen l, a ∉ seen := by
  induction l with
  | nil => intro seen; simp [dedupAux]
  | cons b bs ih =>
    intro seen
    simp only [dedupAux]
    split
    · exact ih seen
    · rename_i hb
      refine ⟨List.nodup_cons.mpr ⟨?_, (ih (b :: seen)).1⟩, ?_⟩
      · intro hmem
        exact (ih (b :: seen)).2 b hmem (List.mem_cons_self b seen)
      · intro a ha
        rcases List.mem_cons.mp ha with rfl | h2
        · exact hb
        · intro hs
          exact (ih (b :: seen)).2 a h2 (List.mem_cons_of_mem _ hs)

theorem dedupList_nodup {α : Type} [DecidableEq α] (l : List α) : (dedupList l).Nodup :=
  (dedupAux_nodup l []).1

theorem mem_of_mem_dedupList {α : Type} [DecidableEq α] {l : List α} {a : α}
    (h : a ∈ dedupList l) : a ∈ l :=
  mem_of_mem_dedupAux h

theorem dedupList_ne_nil {α : Type} [DecidableEq α] {l : List α} (h : l ≠ []) :
    dedupList l ≠ [] := by
  cases l with
  | nil => exact absurd rfl h
  | cons a as => simp [dedupList, dedupAux]

theorem perm_insertDescBy {α : Type} (key : α → ℤ) (a : α) (l : List α) :
    (insertDescBy key a l).Perm (a :: l) := by
  induction l with
  | nil => exact List.Perm.refl _
  | cons b bs ih =>
    simp only [insertDescBy]
    split
    · exact List.Perm.refl _
    · exact (ih.cons b).trans (List.Perm.swap a b bs)

theorem perm_sortDescBy {α : Type} (key : α → ℤ) (l : List α) :
    (sortDescBy key l).Perm l := by
  induction l with
  | nil => exact List.Perm.refl _
  | cons a as ih =>
    exact (perm_insertDescBy key a (sortDescBy key as)).trans (ih.cons a)

theorem pairwise_insertDescBy {α : Type} (key : α → ℤ) (a : α) (l : List α)
    (h : l.Pairwise (fun x y => key y ≤ key x)) :
    (insertDescBy key a l).Pairwise (fun x y => key y ≤ key x) := by
  induction l with
  | nil => simp [insertDescBy]
  | cons b bs ih =>
    rcases List.pairwise_cons.mp h with ⟨hb, hbs⟩
    simp only [insertDescBy]
    split
    · rename_i hlt
      refine List.pairwise_cons.mpr ⟨?_, h⟩
      intro x hx
      rcases List.mem_cons.mp hx with rfl | hx2
      · exact le_of_lt hlt
      · exact le_trans (hb x hx2) (le_of_lt hlt)
    · rename_i hnlt
      refine List.pairwise_cons.mpr ⟨?_, ih hbs⟩
      intro x hx
      rcases List.mem_cons.mp ((perm_insertDescBy key a bs).mem_iff.mp hx) with rfl | hx4
      · exact le_of_not_lt hnlt
      · exact hb x hx4

theorem pairwise_sortDescBy {α : Type} (key : α → ℤ) (l : List α) :
    (sortDescBy key l).Pairwise (fun x y => key y ≤ key x) := by
  induction l with
  | nil => simp [sortDescBy]
  | cons a as ih => exact pairwise_insertDescBy key a (sortDescBy key as) ih

theorem intHead_sublist {α : Type} (n : ℤ) (l : List α) : (intHead n l).Sublist l := by
  unfold intHead
  split
  · exact List.take_sublist _ _
  · exact List.take_sublist _ _

theorem intHead_length_le {α : Type} {n : ℤ} (l : List α) (h : 0 ≤ n) :
    ((intHead n l).length : ℤ) ≤ n := by
  unfold intHead
  rw [if_pos h]
  have h1 : (l.take n.toNat).length ≤ n.toNat := by
    rw [List.length_take]
    exact min_le_left _ _
  omega

theorem cellOf_mkProcRow_genid (g p s n o : Option Cell) :
    cellOf (mkProcRow g p s n o) "GENID" = g := rfl

theorem cellOf_mkProcRow_pname (g p s n o : Option Cell) :
    cellOf (mkProcRow g p s n o) "PNAME" = p := rfl

theorem cellOf_mkProcRow_pstateabb (g p s n o : Option Cell) :
    cellOf (mkProcRow g p s n o) "PSTATEABB" = s := rfl

theorem cellOf_mkProcRow_genntan (g p s n o : Option Cell) :
    cellOf (mkProcRow g p s n o) "GENNTAN" = n := rfl

theorem cellOf_mkProcRow_orispl (g p s n o : Option Cell) :
    cellOf (mkProcRow g p s n o) "ORISPL" = o := rfl

theorem toNumericO_isSome {c : Option Cell} (h : (toNumericO c).isSome) :
    ∃ q : ℤ, toNumericO c = some (Cell.num q) := by
  cases c with
  | none => simp [toNumericO] at h
  | some v =>
    cases v with
    | num q => exact ⟨q, rfl⟩
    | str s => simp [toNumericO] at h

/-- Membership in a processed file: the row satisfies `procRow` of some input row. -/
theorem mem_processCsvData {t : Table} {r : Row} (h : r ∈ (processCsvData t).rows) :
    ∃ r0 ∈ t.rows, procRow r0 = some r := by
  unfold processCsvData at h
  split at h
  · exact List.mem_filterMap.mp h
  · simp [emptyTable] at h

/-- The cache-hit branch of `get_data_from_s3`. -/
theorem getData_cache_hit (now : Nat) (listing : Listing) (st : AppState) (d : Table)
    (t : Nat) (h1 : st.dataCache = some d) (h2 : st.dataCacheTs = some t)
    (h3 : now - t < 300) : getDataFromS3 now listing st = ⟨Except.ok d, st, false⟩ := by
  rcases st with ⟨store, dc, ts, sc⟩
  simp only at h1 h2
  subst h1
  subst h2
  simp [getDataFromS3, h3]

/-- The cache-miss branch: a cold dataset cache always takes the refresh path. -/
theorem getData_cold (now : Nat) (listing : Listing) (st : AppState)
    (h : st.dataCache = none) :
    getDataFromS3 now listing st = refreshData st := by
  rcases st with ⟨store, dc, ts, sc⟩
  simp only at h
  subst h
  simp [getDataFromS3]

/-- A stale cache also takes the refresh path. -/
theorem getData_stale (now : Nat) (listing : Listing) (st : AppState) (d : Table)
    (t : Nat) (h1 : st.dataCache = some d) (h2 : st.dataCacheTs = some t)
    (h3 : ¬ (now - t < 300)) : getDataFromS3 now listing st = refreshData st := by
  rcases st with ⟨store, dc, ts, sc⟩
  simp only at h1 h2
  subst h1
  subst h2
  simp [getDataFromS3, h3]

/-- `upload_csv` either rejects with the state untouched, or stores the
converted frame and clears the states cache. -/
theorem uploadCsv_cases (fname : String) (content : Table) (st : AppState) :
    uploadCsv fname content st = (UploadOutcome.rejected, st) ∨
    uploadCsv fname content st =
      (UploadOutcome.uploaded (convertToApiFormat (cleanDataframe content)).rows.length,
       { st with
           store := putBlob st.store ("cleaned_" ++ stemOf fname ++ ".csv")
             (convertToApiFormat (cleanDataframe content)),
           statesCache := none }) := by
  unfold uploadCsv
  split
  · exact Or.inl rfl
  · dsimp only
    split
    · exact Or.inl rfl
    · exact Or.inr rfl

/-- When one of the five compact fields has no source column, the normalizer
returns the empty frame and the upload is rejected without touching the state. -/
theorem uploadCsv_missing_rejected (fname : String) (content : Table) (st : AppState)
    (h : ∃ p ∈ apiColumns, apiSource (cleanDataframe content) p = none) :
    convertToApiFormat (cleanDataframe content) = emptyTable ∧
    uploadCsv fname content st = (UploadOutcome.rejected, st) := by
  have hcond : ¬ (apiColumns.all
      (fun p => (apiSource (cleanDataframe content) p).isSome) = true) := by
    intro hall
    rw [List.all_eq_true] at hall
    rcases h with ⟨p, hp, hnone⟩
    have := hall p hp
    rw [hnone] at this
    simp at this
  have hconv : convertToApiFormat (cleanDataframe content) = emptyTable := by
    unfold convertToApiFormat
    exact if_neg hcond
  refine ⟨hconv, ?_⟩
  unfold uploadCsv
  split
  · rfl
  · rw [hconv]
    rfl

theorem convertCol_rows_length (c : String) (t : Table) :
    (convertCol c t).rows.length = t.rows.length := by
  simp [convertCol]

theorem convStage_rows_length (t : Table) :
    (convStage t).rows.length = t.rows.length := by
  unfold convStage
  generalize typeConversions = l
  induction l generalizing t with
  | nil => rfl
  | cons p ps ih =>
    simp only [List.foldl_cons]
    split
    · rw [ih, convertCol_rows_length]
    · exact ih t

/-! ## Claim C1 -/

/-- C1 (counterexample): the claim "every Canonical Record in the persisted
dataset has all five fields non-null ... rows with missing `net_generation`
are excluded, never defaulted" is false at concrete inputs.  First: a stored
file whose row has a null `GENID` passes consolidation with `generator_id`
still null (the `dropna` subset omits `GENID`).  Second: uploading a
legacy-named file whose row has a missing `GENNTAN` persists that row with
`net_generation` defaulted to `0` by the cleaner's `fillna`, instead of
excluding it. -/
theorem c1_counterexample :
    (∃ r ∈ (processCsvData genidNullTable).rows, cellOf r "GENID" = none) ∧
    (∃ p ∈ (uploadCsv "a.csv" legacyNullGenntanTable initialState).2.store,
       ∃ r ∈ p.2.rows, cellOf r "GENNTAN" = some (Cell.num 0)) := by
  decide

/-- C1 (amended): every record of the consolidated dataset (the union of
`process_csv_data` outputs over any collection of stored files) has
`plant_name`, `plant_state` and `plant_code` non-null and `net_generation`
numeric non-null; rows failing those checks are excluded at consolidation.
(`generator_id` may be null, and upload-side `fillna` defaults a missing
`net_generation` to 0, as the counterexample shows.) -/
theorem c1_consolidated_invariant :
    ∀ (ts : List Table) (r : Row),
      r ∈ (concatTables (ts.map processCsvData)).rows →
      (cellOf r "PNAME").isSome ∧ (cellOf r "PSTATEABB").isSome ∧
      (cellOf r "ORISPL").isSome ∧ ∃ q : ℤ, cellOf r "GENNTAN" = some (Cell.num q) := by
  intro ts r hr
  have hsrc : ∃ t ∈ ts, r ∈ (processCsvData t).rows := by
    simp only [concatTables] at hr
    rw [List.mem_flatten] at hr
    rcases hr with ⟨l, hl, hrl⟩
    rw [List.mem_map] at hl
    rcases hl with ⟨tb, htb, rfl⟩
    rw [List.mem_map] at htb
    rcases htb with ⟨t, ht, rfl⟩
    exact ⟨t, ht, hrl⟩
  rcases hsrc with ⟨t, _, hrt⟩
  rcases mem_processCsvData hrt with ⟨r0, _, hproc⟩
  dsimp only [procRow] at hproc
  split at hproc
  · rename_i hcond
    have hr' := Option.some.inj hproc
    subst hr'
    simp only [Bool.and_eq_true] at hcond
    rcases hcond with ⟨⟨⟨hn, hs⟩, hp⟩, ho⟩
    refine ⟨?_, ?_, ?_, ?_⟩
    · rw [cellOf_mkProcRow_pname]; exact hp
    · rw [cellOf_mkProcRow_pstateabb]; exact hs
    · rw [cellOf_mkProcRow_orispl]; exact ho
    · rw [cellOf_mkProcRow_genntan]; exact toNumericO_isSome hn
  · exact absurd hproc (by simp)

/-- C1 (witness): the amended invariant applied to the concrete consolidated
dataset of the single stored file `c3Example`. -/
theorem c1_witness :
    c3ProcessedRow ∈ (concatTables ([c3Example].map processCsvData)).rows ∧
    ((cellOf c3ProcessedRow "PNAME").isSome ∧ (cellOf c3ProcessedRow "PSTATEABB").isSome ∧
     (cellOf c3ProcessedRow "ORISPL").isSome ∧
     ∃ q : ℤ, cellOf c3ProcessedRow "GENNTAN" = some (Cell.num q)) :=
  ⟨by decide, c1_consolidated_invariant [c3Example] c3ProcessedRow (by decide)⟩

/-! ## Claim C2 -/

/-- C2 (counterexample): the claim "stored record count = input rows minus
rows with a non-coercible `net_generation` or any null required field" is
false: a legacy-named one-row file whose `GENNTAN` is the non-coercible text
"abc" should yield count 1 - 1 = 0, but the upload succeeds with
`records_count = 1` (the cleaner never drops such rows). -/
theorem c2_counterexample :
    (uploadCsv "b.csv" legacyBadGenntanTable initialState).1 = UploadOutcome.uploaded 1 ∧
    legacyBadGenntanTable.rows.length = 1 ∧
    (legacyBadGenntanTable.rows.filter
      (fun r => (toNumericO (cellOf r "GENNTAN")).isNone)).length = 1 := by
  decide

theorem fillStage_rows_length (t : Table) : (fillStage t).rows.length = t.rows.length := by
  unfold fillStage
  dsimp only
  rw [List.length_map]

theorem renameStage_rows_length (t : Table) : (renameStage t).rows.length = t.rows.length := by
  unfold renameStage
  dsimp only
  rw [List.length_map]

/-- C2 (amended): for a CSV upload whose file carries all five required fields
under a supported naming scheme (legacy or canonical, as witnessed by every
API column having a source after cleaning) and at least one row, the upload
succeeds and the stored record count equals the number of input rows remaining
after the cleaner's rename + default-fill + exact-duplicate removal.  No rows
are subtracted for non-coercible or null `net_generation` at upload time. -/
theorem c2_upload_count :
    ∀ (fname : String) (f : Table) (st : AppState),
      strEndsWith fname ".csv" = true →
      (∀ p ∈ apiColumns, (apiSource (cleanDataframe f) p).isSome) →
      f.rows ≠ [] →
      (uploadCsv fname f st).1 =
        UploadOutcome.uploaded (dedupList ((fillStage (renameStage f)).rows)).length := by
  intro fname f st hext hcols hne
  have hall : apiColumns.all (fun p => (apiSource (cleanDataframe f) p).isSome) = true := by
    rw [List.all_eq_true]
    exact hcols
  have hclean_len : (cleanDataframe f).rows.length =
      (dedupList ((fillStage (renameStage f)).rows)).length := by
    unfold cleanDataframe
    rw [convStage_rows_length]
    rfl
  have h1 : (fillStage (renameStage f)).rows ≠ [] := by
    intro h
    have hlen := congrArg List.length h
    rw [fillStage_rows_length, renameStage_rows_length] at hlen
    exact hne (List.length_eq_zero.mp hlen)
  have h2 := dedupList_ne_nil h1
  have hclean_ne : (cleanDataframe f).rows ≠ [] := by
    intro hc
    have hl0 : (dedupList ((fillStage (renameStage f)).rows)).length = 0 := by
      rw [← hclean_len, hc]
      rfl
    exact h2 (List.length_eq_zero.mp hl0)
  have hcond : (!(strEndsWith fname ".csv" || strEndsWith fname ".xlsx")) ≠ true := by
    rw [hext]
    simp
  have hapi : convertToApiFormat (cleanDataframe f) =
      ⟨apiColumns.map (fun p => p.2),
       (cleanDataframe f).rows.map (fun r => apiColumns.map
         (fun p => (p.2, cellOf r ((apiSource (cleanDataframe f) p).getD p.1))))⟩ := by
    unfold convertToApiFormat
    rw [if_pos hall]
  have hnotempty : (convertToApiFormat (cleanDataframe f)).isEmpty = false := by
    rw [hapi]
    simp only [Table.isEmpty, apiColumns]
    simp [List.isEmpty_iff, hclean_ne]
  unfold uploadCsv
  rw [if_neg hcond]
  dsimp only
  rw [if_neg (by rw [hnotempty]; simp : ¬ ((convertToApiFormat (cleanDataframe f)).isEmpty = true))]
  rw [hapi]
  simp only [List.length_map]
  rw [hclean_len]

/-- C2 (witness): the amended count law at a concrete legacy-named upload. -/
theorem c2_witness :
    strEndsWith "a.csv" ".csv" = true ∧
    (∀ p ∈ apiColumns, (apiSource (cleanDataframe c3Example) p).isSome) ∧
    c3Example.rows ≠ [] ∧
    (uploadCsv "a.csv" c3Example initialState).1 =
      UploadOutcome.uploaded (dedupList ((fillStage (renameStage c3Example)).rows)).length :=
  ⟨by decide, by decide, by decide,
   c2_upload_count "a.csv" c3Example initialState (by decide) (by decide) (by decide)⟩

/-- `plant_totals` is either empty (empty dataset or no matching state rows) or
the truncated descending sort of the per-key group sums. -/
theorem topGroups_eq_cases (data : Table) (state : String) (limit : ℤ) :
    topGroups data state limit = [] ∨
    topGroups data state limit =
      intHead limit (sortDescBy (fun g => g.2)
        ((dedupList ((stateRows data state).filterMap rowKey)).map
          (fun k => (k, groupSum (stateRows data state) k)))) := by
  unfold topGroups
  split
  · exact Or.inl rfl
  · dsimp only
    split
    · exact Or.inl rfl
    · exact Or.inr rfl

/-! ## Claim C3 -/

/-- C3 (confirmed): every entry of `top_plants` is a plant aggregate: its
value is the sum of `GENNTAN` over all state-filtered rows sharing its
`(plant_code, plant_name)` group key, group keys are pairwise distinct (one
entry per pair), `topPlants` is exactly the per-group rendering of
`plant_totals`, and on the spec's example dataset (plant 55 "Alpha" in CA with
rows 100 and 50) the query returns the single aggregate 150. -/
theorem c3_aggregate :
    ∀ (data : Table) (state : String) (limit : ℤ), gennAllNum data →
      (∀ g ∈ topGroups data state limit,
         g.2 = groupSum (stateRows data state) g.1) ∧
      ((topGroups data state limit).map Prod.fst).Nodup ∧
      topPlants data state limit = (topGroups data state limit).map
        (fun g => ⟨cellToString g.1.1, cellToString g.1.2, state, g.2⟩) ∧
      (topPlants c3Example "CA" 10).map (fun p => p.netGeneration) = [150] ∧
      (topPlants c3Example "CA" 10).length = 1 := by
  intro data state limit _
  rcases topGroups_eq_cases data state limit with hcase | hcase
  · refine ⟨?_, ?_, rfl, by decide, by decide⟩
    · intro g hg
      rw [hcase] at hg
      simp at hg
    · rw [hcase]
      simp
  · have hsub : ∀ g ∈ topGroups data state limit,
        g ∈ (dedupList ((stateRows data state).filterMap rowKey)).map
          (fun k => (k, groupSum (stateRows data state) k)) := by
      intro g hg
      rw [hcase] at hg
      exact (perm_sortDescBy _ _).subset ((intHead_sublist _ _).subset hg)
    refine ⟨?_, ?_, rfl, by decide, by decide⟩
    · intro g hg
      rcases List.mem_map.mp (hsub g hg) with ⟨k, _, rfl⟩
      rfl
    · have hnodup0 : ((dedupList ((stateRows data state).filterMap rowKey)).map
          (fun k => (k, groupSum (stateRows data state) k))).Nodup := by
        refine List.Nodup.map ?_ (dedupList_nodup _)
        intro a b hab
        exact congrArg Prod.fst hab
      have hnodup1 := ((perm_sortDescBy (fun g => g.2) _).nodup_iff).mpr hnodup0
      have hnodup2 : (topGroups data state limit).Nodup := by
        rw [hcase]
        exact List.Nodup.sublist (intHead_sublist _ _) hnodup1
      refine List.Nodup.map_on ?_ hnodup2
      intro x hx y hy hxy
      rcases List.mem_map.mp (hsub x hx) with ⟨kx, _, rfl⟩
      rcases List.mem_map.mp (hsub y hy) with ⟨ky, _, rfl⟩
      simp only at hxy
      rw [hxy]

/-- C3 (witness): the aggregate law applied at the example dataset: the group
`(55, "Alpha")` carries value 150 = 100 + 50. -/
theorem c3_witness :
    gennAllNum c3Example ∧
    ((Cell.num 55, Cell.str "Alpha"), (150 : ℤ)) ∈ topGroups c3Example "CA" 10 ∧
    (150 : ℤ) = groupSum (stateRows c3Example "CA") (Cell.num 55, Cell.str "Alpha") :=
  ⟨by decide, by decide,
   (c3_aggregate c3Example "CA" 10 (by decide)).1
     ((Cell.num 55, Cell.str "Alpha"), (150 : ℤ)) (by decide)⟩

/-! ## Claim C4 -/

/-- C4 (counterexample): the claim "for every caller-supplied limit the result
has length at most limit" fails for a negative limit: `head(-1)` on the
two-plant CA dataset returns 1 entry, and 1 is not at most -1. -/
theorem c4_counterexample :
    ¬ (((topPlants twoPlantTable "CA" (-1)).length : ℤ) ≤ (-1 : ℤ)) := by
  decide

/-- C4 (amended): for every dataset, state and nonnegative limit, `top_plants`
returns at most `limit` entries, and for every limit — negative ones included —
the entries are sorted non-increasing in `net_generation`.  (For a negative
limit, `head` instead drops trailing entries, which the counterexample
exhibits, so only the length bound needs the sign restriction.) -/
theorem c4_limit_sorted :
    ∀ (data : Table) (state : String) (limit : ℤ),
      (0 ≤ limit → ((topPlants data state limit).length : ℤ) ≤ limit) ∧
      (topPlants data state limit).Pairwise
        (fun a b => b.netGeneration ≤ a.netGeneration) := by
  intro data state limit
  have hpair : (topGroups data state limit).Pairwise (fun x y => y.2 ≤ x.2) := by
    rcases topGroups_eq_cases data state limit with hcase | hcase
    · rw [hcase]
      simp
    · rw [hcase]
      exact List.Pairwise.sublist (intHead_sublist _ _) (pairwise_sortDescBy _ _)
  constructor
  · intro hlim
    rcases topGroups_eq_cases data state limit with hcase | hcase
    · simp only [topPlants, hcase, List.map_nil, List.length_nil, Nat.cast_zero]
      exact hlim
    · simp only [topPlants, List.length_map, hcase]
      exact intHead_length_le _ hlim
  · exact List.Pairwise.map _ (fun a b h => h) hpair

/-- C4 (witness): the amended bound at the nonnegative limit 10, plus the
unconditional sortedness both at limit 10 and at the negative limit -1. -/
theorem c4_witness :
    (0 : ℤ) ≤ 10 ∧
    ((topPlants twoPlantTable "CA" 10).length : ℤ) ≤ 10 ∧
    (topPlants twoPlantTable "CA" 10).Pairwise
      (fun a b => b.netGeneration ≤ a.netGeneration) ∧
    (topPlants twoPlantTable "CA" (-1)).Pairwise
      (fun a b => b.netGeneration ≤ a.netGeneration) :=
  ⟨by decide,
   (c4_limit_sorted twoPlantTable "CA" 10).1 (by decide),
   (c4_limit_sorted twoPlantTable "CA" 10).2,
   (c4_limit_sorted twoPlantTable "CA" (-1)).2⟩

/-! ## Claim C5 -/

/-- C5 (confirmed): while the dataset cache is set and younger than 300
seconds, the materializer returns the cached dataset unchanged with no store
access and no state change, so repeated `top_plants` queries inside the window
are identical regardless of what the store listing would return. -/
theorem c5_cache_window :
    ∀ (now : Nat) (listing : Listing) (st : AppState) (d : Table) (t : Nat),
      st.dataCache = some d → st.dataCacheTs = some t → now - t < 300 →
      getDataFromS3 now listing st = ⟨Except.ok d, st, false⟩ ∧
      (∀ (listing2 : Listing) (state : String) (limit : ℤ),
        getPlants now listing st state limit = getPlants now listing2 st state limit) := by
  intro now listing st d t h1 h2 h3
  have hmain := getData_cache_hit now listing st d t h1 h2 h3
  refine ⟨hmain, ?_⟩
  intro listing2 state limit
  unfold getPlants
  rw [hmain, getData_cache_hit now listing2 st d t h1 h2 h3]

/-- C5 (witness): a cache filled at time 100, queried at time 150 against a
listing whose store even contains a failing blob, still serves the cache. -/
theorem c5_witness :
    cachedState.dataCache = some c3Example ∧ cachedState.dataCacheTs = some 100 ∧
    (150 : Nat) - 100 < 300 ∧
    getDataFromS3 150 badListing cachedState = ⟨Except.ok c3Example, cachedState, false⟩ :=
  ⟨rfl, rfl, by decide,
   (c5_cache_window 150 badListing cachedState c3Example 100 rfl rfl (by decide)).1⟩

/-! ## Claim C6 -/

/-- C6 (counterexample): the claim "an unreadable or invalid stored file is
skipped silently and consolidation proceeds with the union of the remaining
valid files; a single corrupt file never empties or fails the whole query
result" is false: whether a blob is invalid (`mixedListing`) or its get would
fail (`badListing`), the whole consolidation fails with the escaping
`TypeError` from the backend dispatch — the remaining valid file (whose
processed rows are non-empty) is never consulted and no union is returned. -/
theorem c6_counterexample :
    (getDataFromS3 0 mixedListing initialState).data = Except.error () ∧
    (getDataFromS3 0 badListing initialState).data = Except.error () ∧
    (processCsvData invalidFile).rows = [] ∧
    (processCsvData c3Example).rows ≠ [] := by
  decide

/-- C6 (amended): no per-file skipping ever happens during consolidation:
every cache-miss (cold or stale) refresh raises `TypeError` at the
`isinstance(s3_client, boto3.client)` backend dispatch — outside both `try`
blocks, before the bucket is listed or any file is read — and the route
surfaces it as HTTP 500 with the state unchanged.  A single corrupt file
therefore never influences the result, but only because the result never
depends on the store contents at all: consolidation fails wholesale and the
skip-and-continue machinery below the dispatch is dead code. -/
theorem c6_refresh_raises :
    ∀ (now : Nat) (listing : Listing) (st : AppState),
      (st.dataCache = none →
        getDataFromS3 now listing st = ⟨Except.error (), st, false⟩) ∧
      (∀ (d : Table) (t : Nat), st.dataCache = some d → st.dataCacheTs = some t →
        300 ≤ now - t →
        getDataFromS3 now listing st = ⟨Except.error (), st, false⟩) ∧
      (∀ listing2 : Listing,
        getDataFromS3 now listing st = getDataFromS3 now listing2 st) := by
  intro now listing st
  refine ⟨?_, ?_, ?_⟩
  · intro h
    rw [getData_cold now listing st h]
    rfl
  · intro d t h1 h2 h3
    rw [getData_stale now listing st d t h1 h2 (by omega)]
    rfl
  · intro listing2
    rfl

/-- C6 (witness): concrete consolidations against a store holding a valid file
next to an invalid or unreadable one fail wholesale, both from a cold cache
and from a stale one. -/
theorem c6_witness :
    initialState.dataCache = none ∧
    getDataFromS3 0 mixedListing initialState = ⟨Except.error (), initialState, false⟩ ∧
    getDataFromS3 999 badListing cachedState = ⟨Except.error (), cachedState, false⟩ :=
  ⟨rfl,
   (c6_refresh_raises 0 mixedListing initialState).1 rfl,
   (c6_refresh_raises 999 badListing cachedState).2.1 c3Example 100 rfl rfl (by decide)⟩

/-! ## Claim C7 -/

/-- C7 (confirmed): when any of the five compact fields has no source column
after the long-form-to-compact mapping stage, the normalizer returns the empty
frame and the upload is rejected with the state untouched — no partial
canonical records are persisted. -/
theorem c7_missing_field_rejects :
    ∀ (fname : String) (f : Table) (st : AppState),
      (∃ p ∈ apiColumns, apiSource (cleanDataframe f) p = none) →
      convertToApiFormat (cleanDataframe f) = emptyTable ∧
      uploadCsv fname f st = (UploadOutcome.rejected, st) := by
  intro fname f st h
  exact uploadCsv_missing_rejected fname f st h

/-- C7 (witness): a file missing the generator-id column under both namings is
rejected and nothing reaches the store. -/
theorem c7_witness :
    (∃ p ∈ apiColumns, apiSource (cleanDataframe missingColTable) p = none) ∧
    (convertToApiFormat (cleanDataframe missingColTable) = emptyTable ∧
     uploadCsv "m.csv" missingColTable initialState =
       (UploadOutcome.rejected, initialState)) :=
  ⟨by decide, c7_missing_field_rejects "m.csv" missingColTable initialState (by decide)⟩

/-! ## Claim C8 -/

/-- C8 (confirmed): an upload missing a required column is rejected and leaves
the whole application state unchanged: the store is untouched, the states
cache is not cleared, and subsequent `get_states` and `top_plants` results are
identical to what they would have been without the rejected upload. -/
theorem c8_reject_preserves_state :
    ∀ (fname : String) (f : Table) (st : AppState),
      (∃ p ∈ apiColumns, apiSource (cleanDataframe f) p = none) →
      uploadCsv fname f st = (UploadOutcome.rejected, st) ∧
      (uploadCsv fname f st).2.store = st.store ∧
      (uploadCsv fname f st).2.statesCache = st.statesCache ∧
      (∀ (now : Nat) (listing : Listing),
        getStates now listing (uploadCsv fname f st).2 = getStates now listing st) ∧
      (∀ (now : Nat) (listing : Listing) (state : String) (limit : ℤ),
        getPlants now listing (uploadCsv fname f st).2 state limit =
        getPlants now listing st state limit) := by
  intro fname f st h
  have hrej := (uploadCsv_missing_rejected fname f st h).2
  refine ⟨hrej, ?_, ?_, ?_, ?_⟩
  · rw [hrej]
  · rw [hrej]
  · intro now listing
    rw [hrej]
  · intro now listing state limit
    rw [hrej]

/-- C8 (witness): a concrete rejected upload against a warm state changes no
observable result. -/
theorem c8_witness :
    (∃ p ∈ apiColumns, apiSource (cleanDataframe missingColTable) p = none) ∧
    uploadCsv "m2.csv" missingColTable cachedState = (UploadOutcome.rejected, cachedState) ∧
    getStates 0 badListing (uploadCsv "m2.csv" missingColTable cachedState).2 =
      getStates 0 badListing cachedState :=
  ⟨by decide,
   (c8_reject_preserves_state "m2.csv" missingColTable cachedState (by decide)).1,
   (c8_reject_preserves_state "m2.csv" missingColTable cachedState (by decide)).2.2.2.1
     0 badListing⟩

/-! ## Claim C9 -/

/-- C9 (confirmed): a successful upload clears only the states cache: the
dataset cache and its timestamp are unchanged, so a query inside the 300
second window after the last refresh still returns the pre-upload dataset,
not reflecting the newly uploaded file. -/
theorem c9_upload_cache_frame :
    ∀ (fname : String) (f : Table) (st : AppState) (n : Nat),
      (uploadCsv fname f st).1 = UploadOutcome.uploaded n →
      (uploadCsv fname f st).2.dataCache = st.dataCache ∧
      (uploadCsv fname f st).2.dataCacheTs = st.dataCacheTs ∧
      (uploadCsv fname f st).2.statesCache = none ∧
      (∀ (now : Nat) (listing : Listing) (d : Table) (t : Nat),
        st.dataCache = some d → st.dataCacheTs = some t → now - t < 300 →
        (getDataFromS3 now listing (uploadCsv fname f st).2).data = Except.ok d) := by
  intro fname f st n h
  rcases uploadCsv_cases fname f st with hcase | hcase
  · rw [hcase] at h
    simp at h
  · have hdc : (uploadCsv fname f st).2.dataCache = st.dataCache := by rw [hcase]
    have hts : (uploadCsv fname f st).2.dataCacheTs = st.dataCacheTs := by rw [hcase]
    have hsc : (uploadCsv fname f st).2.statesCache = none := by rw [hcase]
    refine ⟨hdc, hts, hsc, ?_⟩
    intro now listing d t h1 h2 h3
    rw [getData_cache_hit now listing (uploadCsv fname f st).2 d t
      (by rw [hdc]; exact h1) (by rw [hts]; exact h2) h3]

/-- C9 (witness): after a successful upload into a warm state, a query 50
seconds after the cache fill still returns the pre-upload dataset. -/
theorem c9_witness :
    (uploadCsv "a.csv" c3Example cachedState).1 = UploadOutcome.uploaded 2 ∧
    (getDataFromS3 150 badListing (uploadCsv "a.csv" c3Example cachedState).2).data =
      Except.ok c3Example :=
  ⟨by decide,
   (c9_upload_cache_frame "a.csv" c3Example cachedState 2 (by decide)).2.2.2
     150 badListing c3Example 100 rfl rfl (by decide)⟩

/-! ## Claim C10 -/

/-- C10 (counterexample): the claim "when a cache-miss refresh yields no data
the materializer returns an empty dataset ... so the next request triggers a
fresh store scan" is false: with a cold cache the call produces an escaping
error (HTTP 500 at the route), not an empty dataset, and it never accesses the
store — neither on this request nor on the next one, which fails identically
before any scan. -/
theorem c10_counterexample :
    (getDataFromS3 7 (Except.ok []) initialState).data = Except.error () ∧
    (getDataFromS3 7 (Except.ok []) initialState).data ≠ Except.ok emptyTable ∧
    (getDataFromS3 7 (Except.ok []) initialState).accessed = false ∧
    (getDataFromS3 8 (Except.ok [])
      (getDataFromS3 7 (Except.ok []) initialState).st).accessed = false := by
  decide

/-- C10 (amended): a cache-miss refresh never yields a dataset at all: it
raises `TypeError` at the backend dispatch before any store access (no scan
happens), and no materializer call ever modifies the dataset cache or its
timestamp — the assignment at services.py lines 100-101 is unreachable — so
nothing, empty or otherwise, is ever cached and every subsequent request
repeats the same failing, store-free refresh. -/
theorem c10_never_cached :
    ∀ (now : Nat) (listing : Listing) (st : AppState),
      ((getDataFromS3 now listing st).st = st) ∧
      (st.dataCache = none →
        getDataFromS3 now listing st = ⟨Except.error (), st, false⟩) := by
  intro now listing st
  constructor
  · rcases st with ⟨store, dc, ts, sc⟩
    cases dc with
    | none => cases ts <;> rfl
    | some d =>
      cases ts with
      | none => rfl
      | some t =>
        by_cases h : now - t < 300
        · simp [getDataFromS3, h]
        · simp [getDataFromS3, h, refreshData]
  · intro h
    rw [getData_cold now listing st h]
    rfl

/-- C10 (witness): a cold-cache call fails without producing data, and a call
against a store listing leaves the state — cache and timestamp included —
unchanged. -/
theorem c10_witness :
    initialState.dataCache = none ∧
    getDataFromS3 3 (Except.error ()) initialState =
      ⟨Except.error (), initialState, false⟩ ∧
    (getDataFromS3 3 badListing initialState).st = initialState :=
  ⟨rfl,
   (c10_never_cached 3 (Except.error ()) initialState).2 rfl,
   (c10_never_cached 3 badListing initialState).1⟩
